import Mathlib

/-!
Shallow embedding of `src/sixaxis.py` (py6axis): the `SixAxis` PS3 controller
state machine — per-axis auto-calibration and dead/hot-zone correction,
the button-press bitfield, handler registration and dispatch, and the
connect lifecycle.  Python floats are modelled as rationals; Python's
arbitrary-precision ints as `Int`/`Nat` with two's-complement bitwise
operations on `Int` where the source uses `& ~mask`.
-/

namespace SixAxisPy

/-- One analogue axis: `SixAxis.Axis.__init__` (sixaxis.py:365-373). -/
structure Axis where
  centre : ℚ
  max : ℚ
  min : ℚ
  value : ℚ
  invert : Bool
  dead_zone : ℚ
  hot_zone : ℚ
  deriving Repr, DecidableEq

/-- `SixAxis.Axis.__init__`: centre 0.5, max 0.9, min 0.1, value 0.5. -/
def Axis.init (invert : Bool) (dead_zone hot_zone : ℚ) : Axis :=
  { centre := 1/2, max := 9/10, min := 1/10, value := 1/2
    invert := invert, dead_zone := dead_zone, hot_zone := hot_zone }

/-- `SixAxis.Axis._set` (sixaxis.py:424-435): record the raw value and widen
whichever bound it exceeds (at most one per call, `if`/`elif`). -/
def Axis.set_ (a : Axis) (new_value : ℚ) : Axis :=
  let a := { a with value := new_value }
  if new_value > a.max then { a with max := new_value }
  else if new_value < a.min then { a with min := new_value }
  else a

/-- `SixAxis.Axis._reset` (sixaxis.py:413-422): restore centre/max/min defaults;
`value`, `dead_zone`, `hot_zone`, `invert` untouched. -/
def Axis.reset_ (a : Axis) : Axis :=
  { a with centre := 1/2, max := 9/10, min := 1/10 }

/-- Per-axis effect of `SixAxis.set_axis_centres` (sixaxis.py:231-237):
`axis.centre = axis.value`. -/
def Axis.recentre (a : Axis) : Axis :=
  { a with centre := a.value }

/-- `SixAxis.Axis.corrected_value` (sixaxis.py:375-411).  Rational division is
total in Lean (`x / 0 = 0`), standing in for the undefined Python behaviour in
the degenerate `high_end == high_start` configuration; every theorem below
keeps denominators nonzero. -/
def Axis.corrected_value (a : Axis) : ℚ :=
  let high_range := a.max - a.centre
  let high_start := a.centre + a.dead_zone * high_range
  let high_end := a.max - a.hot_zone * high_range
  let low_range := a.centre - a.min
  let low_start := a.centre - a.dead_zone * low_range
  let low_end := a.min + a.hot_zone * low_range
  let result :=
    if a.value > high_start then
      if a.value > high_end then 1
      else (a.value - high_start) / (high_end - high_start)
    else if a.value < low_start then
      if a.value < low_end then -1
      else (a.value - low_start) / (low_start - low_end)
    else 0
  if !a.invert then result else -result

/-! ## Button constants (sixaxis.py:58-74) -/

def BUTTON_SELECT : Nat := 0
def BUTTON_LEFT_STICK : Nat := 1
def BUTTON_RIGHT_STICK : Nat := 2
def BUTTON_START : Nat := 3
def BUTTON_D_UP : Nat := 4
def BUTTON_D_RIGHT : Nat := 5
def BUTTON_D_DOWN : Nat := 6
def BUTTON_D_LEFT : Nat := 7
def BUTTON_L2 : Nat := 8
def BUTTON_R2 : Nat := 9
def BUTTON_L1 : Nat := 10
def BUTTON_R1 : Nat := 11
def BUTTON_TRIANGLE : Nat := 12
def BUTTON_CIRCLE : Nat := 13
def BUTTON_CROSS : Nat := 14
def BUTTON_SQUARE : Nat := 15
def BUTTON_PS : Nat := 16

/-- One entry of `self.button_handlers` (sixaxis.py:264-268): the dict
`{'handler': ..., 'mask': ...}`.  A handler callback is identified by an
opaque `Nat`; Python dict equality (used by `list.remove`) is componentwise
equality, matched here by `DecidableEq`. -/
structure Registration where
  handler : Nat
  mask : Int
  deriving Repr, DecidableEq

/-- The `buttons` argument of `register_button_handler` (sixaxis.py:252-255):
either a bare int or a list of ints. -/
inductive Buttons where
  | single : Nat → Buttons
  | list : List Nat → Buttons
  deriving Repr, DecidableEq

/-- Mask construction in `register_button_handler` (sixaxis.py:258-263):
`mask = 0`, then `mask += 1 << button` for each supplied code (note `+=`,
not `|=`). -/
def computeMask : Buttons → Int
  | .single b => 0 + (1 <<< (b : Int))
  | .list bs => bs.foldl (fun (m : Int) (b : Nat) => m + (1 <<< (b : Int))) 0

/-- Mutable state of a `SixAxis` instance (sixaxis.py:111-117).
`connected` models `self._stop_function is not None` (the boolean
`is_connected` derives from it, sixaxis.py:121-131). -/
structure SixAxisState where
  axes : List Axis
  button_handlers : List Registration
  buttons_pressed : Int
  connected : Bool
  deriving Repr, DecidableEq

/-- `SixAxis.__init__` (sixaxis.py:76-119) with `connect=False`: four axes in
order left-x, left-y, right-x, right-y, empty handler list, zero bitfield. -/
def SixAxisState.init (dead_zone hot_zone : ℚ) (invert_axes : List Bool) : SixAxisState :=
  { axes := [Axis.init (invert_axes.getD 0 false) dead_zone hot_zone,
             Axis.init (invert_axes.getD 1 false) dead_zone hot_zone,
             Axis.init (invert_axes.getD 2 false) dead_zone hot_zone,
             Axis.init (invert_axes.getD 3 false) dead_zone hot_zone]
    button_handlers := []
    buttons_pressed := 0
    connected := false }

/-- `SixAxis.is_connected` (sixaxis.py:121-131). -/
def SixAxisState.is_connected (s : SixAxisState) : Bool :=
  s.connected

/-- `SixAxis.get_and_clear_button_press_history` (sixaxis.py:133-143):
returns the old bitfield and zeroes `buttons_pressed`. -/
def SixAxisState.get_and_clear_button_press_history (s : SixAxisState) :
    Int × SixAxisState :=
  (s.buttons_pressed, { s with buttons_pressed := 0 })

/-- `SixAxis.set_axis_centres` (sixaxis.py:231-237). -/
def SixAxisState.set_axis_centres (s : SixAxisState) : SixAxisState :=
  { s with axes := s.axes.map Axis.recentre }

/-- `SixAxis.reset_axis_calibration` (sixaxis.py:239-244). -/
def SixAxisState.reset_axis_calibration (s : SixAxisState) : SixAxisState :=
  { s with axes := s.axes.map Axis.reset_ }

/-- `SixAxis.register_button_handler` (sixaxis.py:246-273): append the new
registration and return it (the returned closure `remove` is identified by
the dict it captured; see `removeRegistration`). -/
def SixAxisState.register_button_handler (s : SixAxisState)
    (button_handler : Nat) (buttons : Buttons) : Registration × SixAxisState :=
  let h : Registration := { handler := button_handler, mask := computeMask buttons }
  (h, { s with button_handlers := s.button_handlers ++ [h] })

/-- The `remove` closure returned by `register_button_handler`
(sixaxis.py:270-273): Python's `list.remove(h)` deletes the first element
equal to `h` (`List.erase`; Python raises `ValueError` when `h` is absent,
a case no claim exercises). -/
def SixAxisState.removeRegistration (s : SixAxisState) (h : Registration) :
    SixAxisState :=
  { s with button_handlers := s.button_handlers.erase h }

/-- `SixAxis.is_pressed` (sixaxis.py:275-279):
`buttons_pressed & (1 << button) != 0`. -/
def SixAxisState.is_pressed (s : SixAxisState) (button : Nat) : Bool :=
  Int.land s.buttons_pressed (1 <<< (button : Int)) != 0

/-! ## Events -/

/-- evdev `ecodes.EV_KEY`. -/
def EV_KEY : Nat := 1
/-- evdev `ecodes.EV_ABS`. -/
def EV_ABS : Nat := 3

/-- An evdev event as consumed by `handle_event`: `{type, code, value}`. -/
structure Event where
  etype : Nat
  code : Nat
  value : Int
  deriving Repr, DecidableEq

/-- Key-code → button mapping: the `elif` chain of `handle_event`
(sixaxis.py:314-349); unmapped codes give `none` (`button = None`). -/
def keyCodeToButton (code : Nat) : Option Nat :=
  if code = 314 then some BUTTON_SELECT
  else if code = 315 then some BUTTON_START
  else if code = 317 then some BUTTON_LEFT_STICK
  else if code = 318 then some BUTTON_RIGHT_STICK
  else if code = 546 then some BUTTON_D_LEFT
  else if code = 544 then some BUTTON_D_UP
  else if code = 547 then some BUTTON_D_RIGHT
  else if code = 545 then some BUTTON_D_DOWN
  else if code = 316 then some BUTTON_PS
  else if code = 308 then some BUTTON_SQUARE
  else if code = 307 then some BUTTON_TRIANGLE
  else if code = 305 then some BUTTON_CIRCLE
  else if code = 304 then some BUTTON_CROSS
  else if code = 311 then some BUTTON_R1
  else if code = 313 then some BUTTON_R2
  else if code = 310 then some BUTTON_L1
  else if code = 312 then some BUTTON_L2
  else none

/-- Axis-amplitude normalisation of `handle_event` (sixaxis.py:293-297):
`float(event.value)/255.0` clamped to `[0, 1]`. -/
def normalizeAbs (v : Int) : ℚ :=
  let value : ℚ := (v : ℚ) / 255
  if value < 0 then 0 else if value > 1 then 1 else value

/-- `SixAxis.handle_event` (sixaxis.py:281-360).  Returns the new state and
the list of handler invocations `(handler, button)` made synchronously, in
registration order. -/
def SixAxisState.handle_event (s : SixAxisState) (event : Event) :
    SixAxisState × List (Nat × Nat) :=
  if event.etype = EV_ABS then
    let value := normalizeAbs event.value
    if event.code = 0 then
      ({ s with axes := s.axes.modify (fun a => a.set_ value) 0 }, [])
    else if event.code = 1 then
      ({ s with axes := s.axes.modify (fun a => a.set_ value) 1 }, [])
    else if event.code = 3 then
      ({ s with axes := s.axes.modify (fun a => a.set_ value) 2 }, [])
    else if event.code = 4 then
      ({ s with axes := s.axes.modify (fun a => a.set_ value) 3 }, [])
    else (s, [])
  else if event.etype = EV_KEY then
    match keyCodeToButton event.code with
    | none => (s, [])
    | some button =>
      let bitmask : Int := 1 <<< (button : Int)
      if event.value = 1 then
        let fired := (s.button_handlers.filter
            (fun h => Int.land h.mask bitmask != 0)).map
            (fun h => (h.handler, button))
        ({ s with buttons_pressed := Int.lor s.buttons_pressed bitmask }, fired)
      else
        ({ s with buttons_pressed :=
            Int.land s.buttons_pressed (Int.lnot bitmask) }, [])
  else (s, [])

/-- Fold `handle_event` over a list of events, concatenating the handler
invocations. -/
def SixAxisState.run_events (s : SixAxisState) (events : List Event) :
    SixAxisState × List (Nat × Nat) :=
  events.foldl (fun (acc : SixAxisState × List (Nat × Nat)) e =>
    let r := acc.1.handle_event e
    (r.1, acc.2 ++ r.2)) (s, [])

/-! ## Connect lifecycle -/

/-- Default `controller_name` argument of `connect` (sixaxis.py:179). -/
def defaultControllerName : String := "PLAYSTATION(R)3 Controller"

/-- `find_controller_device` inside `connect` (sixaxis.py:200-205): scan the
discovered devices (modelled by their names) for one matching
`controller_name`; raise `IOError` when none matches (in particular when
discovery yields nothing). -/
def find_controller_device (devices : List String) (controller_name : String) :
    Except String String :=
  match devices.find? (fun name => name = controller_name) with
  | some d => .ok d
  | none => .error ("Cannot find a SixAxis controller named " ++ controller_name)

/-- `SixAxis.connect` (sixaxis.py:179-212).  `devices` stands for the names
enumerated by `evdev.list_devices`; `dev` is the optional explicit locator.
The Python function returns `False` when already connected and otherwise
falls off the end after `_start_device_read_loop`, i.e. returns `None`
(modelled `Option Bool`, with `none` for Python `None`); an `IOError` from
`find_controller_device` propagates as `.error`. -/
def SixAxisState.connect (s : SixAxisState) (dev : Option String)
    (controller_name : String) (devices : List String) :
    Except String (Option Bool × SixAxisState) :=
  if s.connected then .ok (some false, s)
  else
    match dev with
    | none =>
      match find_controller_device devices controller_name with
      | .error e => .error e
      | .ok _ => .ok (none, { s with connected := true })
    | some _ => .ok (none, { s with connected := true })

/-- `SixAxis.disconnect` (sixaxis.py:214-221). -/
def SixAxisState.disconnect (s : SixAxisState) : SixAxisState :=
  { s with connected := false }

/-! ## Reachable axis states

States of one axis reachable from construction through the three mutation
paths: raw updates (`_set`, with samples already clamped to `[0,1]` by
`handle_event`), recentring (`set_axis_centres`) and calibration reset. -/

inductive Axis.Reachable : Axis → Prop where
  | init : ∀ invert dz hz, Axis.Reachable (Axis.init invert dz hz)
  | set : ∀ a r, Axis.Reachable a → 0 ≤ r → r ≤ 1 → Axis.Reachable (a.set_ r)
  | recentre : ∀ a, Axis.Reachable a → Axis.Reachable a.recentre
  | reset : ∀ a, Axis.Reachable a → Axis.Reachable a.reset_

/-- Spec-side mask semantics, for comparison with `computeMask`: per the
spec sentence "`mask` — OR of `1 << button_code` for every button code that
should trigger this handler". -/
def maskSpecOr : Buttons → Int
  | .single b => Int.lor 0 (1 <<< (b : Int))
  | .list bs => bs.foldl (fun (m : Int) (b : Nat) => Int.lor m (1 <<< (b : Int))) 0

/-- Spec-side sum-of-powers mask, used to state the amended C8: the sum of
`1 << code` over every code supplied. -/
def maskSpecSum : Buttons → Int
  | .single b => 1 <<< (b : Int)
  | .list bs => (bs.map (fun (b : Nat) => ((1 : Int) <<< (b : Int)))).sum

/-- The button codes supplied by a `buttons` argument, in order. -/
def buttonCodes : Buttons → List Nat
  | .single b => [b]
  | .list bs => bs

/-! ## Bitfield helper lemmas -/

/-- Two integers with the same two's-complement bits are equal. -/
theorem int_eq_of_testBit_eq {x y : Int} (h : ∀ k, x.testBit k = y.testBit k) :
    x = y := by
  cases x with
  | ofNat m =>
    cases y with
    | ofNat n =>
      exact congrArg Int.ofNat (Nat.eq_of_testBit_eq fun k => h k)
    | negSucc n =>
      exfalso
      have hk := h (m + n)
      simp only [Int.testBit] at hk
      rw [Nat.testBit_lt_two_pow (Nat.lt_of_lt_of_le (Nat.lt_two_pow m)
            (Nat.pow_le_pow_right (by norm_num) (Nat.le_add_right m n))),
          Nat.testBit_lt_two_pow (Nat.lt_of_lt_of_le (Nat.lt_two_pow n)
            (Nat.pow_le_pow_right (by norm_num) (Nat.le_add_left n m)))] at hk
      simp at hk
  | negSucc m =>
    cases y with
    | ofNat n =>
      exfalso
      have hk := h (m + n)
      simp only [Int.testBit] at hk
      rw [Nat.testBit_lt_two_pow (Nat.lt_of_lt_of_le (Nat.lt_two_pow m)
            (Nat.pow_le_pow_right (by norm_num) (Nat.le_add_right m n))),
          Nat.testBit_lt_two_pow (Nat.lt_of_lt_of_le (Nat.lt_two_pow n)
            (Nat.pow_le_pow_right (by norm_num) (Nat.le_add_left n m)))] at hk
      simp at hk
    | negSucc n =>
      have : m = n := Nat.eq_of_testBit_eq fun k => by
        have hk := h k
        simp only [Int.testBit] at hk
        exact Bool.not_inj hk
      rw [this]

/-- Clearing a mask really clears it: `(x & ~m) & m = 0`. -/
theorem int_land_lnot_land (x m : Int) :
    Int.land (Int.land x (Int.lnot m)) m = 0 := by
  apply int_eq_of_testBit_eq
  intro k
  rw [Int.testBit_land, Int.testBit_land, Int.testBit_lnot]
  have h0 : (0 : Int).testBit k = false := by simp [Int.testBit]
  rw [h0]
  cases x.testBit k <;> cases m.testBit k <;> simp

/-- Setting a mask makes it visible: `(x | m) & m = m`. -/
theorem int_lor_land (x m : Int) : Int.land (Int.lor x m) m = m := by
  apply int_eq_of_testBit_eq
  intro k
  rw [Int.testBit_land, Int.testBit_lor]
  cases x.testBit k <;> cases m.testBit k <;> simp

/-- `1 <<< b` is nonzero (it is `2 ^ b`). -/
theorem one_shiftLeft_ne_zero (b : Nat) : (1 <<< (b : Int)) ≠ 0 := by
  rw [Int.one_shiftLeft]
  intro h
  have := Nat.pos_pow_of_pos (n := 2) b (by norm_num)
  omega

/-- `min ≤ max` holds in every reachable axis state. -/
theorem Axis.min_le_max_of_reachable {a : Axis} (h : Axis.Reachable a) :
    a.min ≤ a.max := by
  induction h with
  | init invert dz hz => norm_num [Axis.init]
  | set a r _ _ _ ih =>
    simp only [Axis.set_]
    split_ifs with h1 h2 <;> simp only [] <;> linarith
  | recentre a _ ih => simpa [Axis.recentre] using ih
  | reset a _ _ => norm_num [Axis.reset_]

/-- After `_set r` the recorded value lies within the (freshly widened)
bounds, provided `min ≤ max` held before. -/
theorem Axis.set_value_between {a : Axis} (hmm : a.min ≤ a.max) (r : ℚ) :
    (a.set_ r).min ≤ (a.set_ r).value ∧ (a.set_ r).value ≤ (a.set_ r).max := by
  simp only [Axis.set_]
  split_ifs with h1 h2 <;> constructor <;> simp only [] <;> linarith

/-! ## Claims C2 and C3: axis calibration invariants -/

/-- `_set` written as a single conditional on the original state (the inner
`let` of the source only shadows `value`, which neither branch condition
reads). -/
theorem Axis.set_eq (a : Axis) (r : ℚ) :
    a.set_ r = if r > a.max then { a with value := r, max := r }
      else if r < a.min then { a with value := r, min := r }
      else { a with value := r } := rfl

/-- C2, counterexample: the spec's invariant `min ≤ centre ≤ max` fails on
a concrete interleaving — feed raw 1.0 (abs event value 255 on axis 0),
reset the calibration (bounds shrink back to 0.1/0.9 but `value` stays 1.0),
then recentre: the left-x axis ends with `centre = 1.0 > max = 0.9`. -/
theorem C2_counterexample :
    let s0 := SixAxisState.init (1/20) 0 [false, false, false, false]
    let s1 := (s0.handle_event ⟨EV_ABS, 0, 255⟩).1
    let s3 := s1.reset_axis_calibration.set_axis_centres
    let a := s3.axes.getD 0 (Axis.init false 0 0)
    ¬ (a.min ≤ a.centre ∧ a.centre ≤ a.max) := by
  norm_num [SixAxisState.init, SixAxisState.handle_event, EV_ABS, EV_KEY,
    normalizeAbs, Axis.set_, SixAxisState.reset_axis_calibration,
    SixAxisState.set_axis_centres, Axis.reset_, Axis.recentre, Axis.init,
    List.modify, List.getD]

/-- C2, amended: `min ≤ centre ≤ max` is preserved by every `_set` and holds
unconditionally after a calibration reset; recentring preserves it only when
the current `value` lies within `[min, max]` (which a reset with a stale
out-of-bounds `value` can break). -/
theorem C2_invariant_amended (a : Axis) (r : ℚ)
    (h1 : a.min ≤ a.centre) (h2 : a.centre ≤ a.max) :
    ((a.set_ r).min ≤ (a.set_ r).centre ∧ (a.set_ r).centre ≤ (a.set_ r).max) ∧
    (a.reset_.min ≤ a.reset_.centre ∧ a.reset_.centre ≤ a.reset_.max) ∧
    (a.min ≤ a.value → a.value ≤ a.max →
      (a.recentre.min ≤ a.recentre.centre ∧ a.recentre.centre ≤ a.recentre.max)) := by
  refine ⟨?_, ?_, ?_⟩
  · simp only [Axis.set_]
    split_ifs with hs1 hs2 <;> exact ⟨by simp only []; linarith, by simp only []; linarith⟩
  · norm_num [Axis.reset_]
  · intro hv1 hv2
    exact ⟨by simp only [Axis.recentre]; linarith, by simp only [Axis.recentre]; linarith⟩

/-- C2, witness for the amended invariant at the freshly constructed axis
with raw sample 1. -/
theorem C2_invariant_amended_witness :
    let a := Axis.init false (1/20) 0
    (a.min ≤ a.centre ∧ a.centre ≤ a.max) ∧
    (((a.set_ 1).min ≤ (a.set_ 1).centre ∧ (a.set_ 1).centre ≤ (a.set_ 1).max) ∧
     (a.reset_.min ≤ a.reset_.centre ∧ a.reset_.centre ≤ a.reset_.max) ∧
     (a.min ≤ a.value → a.value ≤ a.max →
       (a.recentre.min ≤ a.recentre.centre ∧ a.recentre.centre ≤ a.recentre.max))) :=
  ⟨by norm_num [Axis.init],
   C2_invariant_amended (Axis.init false (1/20) 0) 1
     (by norm_num [Axis.init]) (by norm_num [Axis.init])⟩

/-- C3, counterexample: the claim asserts a reachable state and an in-range
sample exist for which `min ≤ value ≤ max` fails after `_set`; no such state
exists, because `_set` widens whichever bound the new value exceeds in the
same call. -/
theorem C3_counterexample :
    ¬ ∃ a : Axis, Axis.Reachable a ∧ ∃ r : ℚ, 0 ≤ r ∧ r ≤ 1 ∧
      ¬ ((a.set_ r).min ≤ (a.set_ r).value ∧ (a.set_ r).value ≤ (a.set_ r).max) := by
  rintro ⟨a, ha, r, -, -, hc⟩
  exact hc (Axis.set_value_between (Axis.min_le_max_of_reachable ha) r)

/-- C3, amended: after `_set r` for a raw sample `r ∈ [0,1]` in a reachable
state, `value = r`, `min ≤ max` still holds, at most one bound moved (`max`
to `r` when `r > max`, else `min` to `r` when `r < min`, never both), and —
contrary to the claim's last conjunct — `min ≤ value ≤ max` does hold after
the call. -/
theorem C3_set_amended (a : Axis) (r : ℚ) (ha : Axis.Reachable a)
    (hr0 : 0 ≤ r) (hr1 : r ≤ 1) :
    (a.set_ r).value = r ∧
    (a.set_ r).min ≤ (a.set_ r).max ∧
    ((a.set_ r).max = a.max ∨ (a.set_ r).min = a.min) ∧
    (r > a.max → (a.set_ r).max = r ∧ (a.set_ r).min = a.min) ∧
    (¬ r > a.max → (a.set_ r).max = a.max ∧
      (r < a.min → (a.set_ r).min = r) ∧ (¬ r < a.min → (a.set_ r).min = a.min)) ∧
    (a.set_ r).min ≤ (a.set_ r).value ∧ (a.set_ r).value ≤ (a.set_ r).max := by
  have hmm := Axis.min_le_max_of_reachable ha
  have hbetween := Axis.set_value_between hmm r
  refine ⟨?_, ?_, ?_, ?_, ?_, hbetween⟩
  · rw [Axis.set_eq]; split_ifs <;> rfl
  · rw [Axis.set_eq]; split_ifs with hs1 hs2
    · show a.min ≤ r; linarith
    · show r ≤ a.max; linarith
    · exact hmm
  · rw [Axis.set_eq]; split_ifs with hs1 hs2
    · exact Or.inr rfl
    · exact Or.inl rfl
    · exact Or.inl rfl
  · intro h
    rw [Axis.set_eq, if_pos h]
    exact ⟨rfl, rfl⟩
  · intro h
    rw [Axis.set_eq, if_neg h]
    split_ifs with hs2
    · exact ⟨rfl, fun _ => rfl, fun hc => absurd hs2 hc⟩
    · exact ⟨rfl, fun hc => absurd hc hs2, fun _ => rfl⟩

/-- C3, witness for the amended `_set` behaviour at the freshly constructed
axis with raw sample 1. -/
theorem C3_set_amended_witness :
    let a := Axis.init false (1/20) 0
    (Axis.Reachable a ∧ (0:ℚ) ≤ 1 ∧ (1:ℚ) ≤ 1) ∧
    ((a.set_ 1).value = 1 ∧
     (a.set_ 1).min ≤ (a.set_ 1).max ∧
     ((a.set_ 1).max = a.max ∨ (a.set_ 1).min = a.min) ∧
     ((1:ℚ) > a.max → (a.set_ 1).max = 1 ∧ (a.set_ 1).min = a.min) ∧
     (¬ (1:ℚ) > a.max → (a.set_ 1).max = a.max ∧
       ((1:ℚ) < a.min → (a.set_ 1).min = 1) ∧
       (¬ (1:ℚ) < a.min → (a.set_ 1).min = a.min)) ∧
     (a.set_ 1).min ≤ (a.set_ 1).value ∧ (a.set_ 1).value ≤ (a.set_ 1).max) :=
  ⟨⟨Axis.Reachable.init false (1/20) 0, by norm_num, le_refl 1⟩,
   C3_set_amended (Axis.init false (1/20) 0) 1
     (Axis.Reachable.init false (1/20) 0) (by norm_num) (le_refl 1)⟩

/-! ## Claims C6 and C7: correction math -/

/-- C6: with `min < centre < max`, `hot_zone = 0`, `dead_zone ∈ [0,1)` and no
inversion, `corrected_value` is exactly `1` at `value = max`, exactly `-1`
at `value = min`, and `0` at `value = centre`. -/
theorem C6_corrected_extremes (a : Axis) (hmin : a.min < a.centre)
    (hmax : a.centre < a.max) (hhot : a.hot_zone = 0) (hdz0 : 0 ≤ a.dead_zone)
    (hdz1 : a.dead_zone < 1) (hinv : a.invert = false) :
    (a.value = a.max → a.corrected_value = 1) ∧
    (a.value = a.min → a.corrected_value = -1) ∧
    (a.value = a.centre → a.corrected_value = 0) := by
  have hhr : 0 < a.max - a.centre := by linarith
  have hlr : 0 < a.centre - a.min := by linarith
  have hdzh : 0 ≤ a.dead_zone * (a.max - a.centre) := mul_nonneg hdz0 (le_of_lt hhr)
  have hdzl : 0 ≤ a.dead_zone * (a.centre - a.min) := mul_nonneg hdz0 (le_of_lt hlr)
  have hdh : a.dead_zone * (a.max - a.centre) < a.max - a.centre := by
    have := mul_lt_mul_of_pos_right hdz1 hhr
    linarith
  have hdl : a.dead_zone * (a.centre - a.min) < a.centre - a.min := by
    have := mul_lt_mul_of_pos_right hdz1 hlr
    linarith
  refine ⟨?_, ?_, ?_⟩ <;> intro hv <;>
    simp only [Axis.corrected_value, hhot, hinv, hv, zero_mul, sub_zero,
      Bool.not_false, if_true] <;> split_ifs with h1 h2 <;>
    first
      | linarith
      | (rw [div_self]; intro hc; linarith)
      | (rw [div_eq_iff (by linarith)]; ring)

/-- C6, witness: the default calibration with `dead_zone = 0.05` and
`value = max = 0.9`. -/
theorem C6_corrected_extremes_witness :
    let a : Axis := { centre := 1/2, max := 9/10, min := 1/10, value := 9/10,
                      invert := false, dead_zone := 1/20, hot_zone := 0 }
    (a.min < a.centre ∧ a.centre < a.max ∧ a.hot_zone = 0 ∧
     0 ≤ a.dead_zone ∧ a.dead_zone < 1 ∧ a.invert = false) ∧
    ((a.value = a.max → a.corrected_value = 1) ∧
     (a.value = a.min → a.corrected_value = -1) ∧
     (a.value = a.centre → a.corrected_value = 0)) :=
  ⟨by norm_num,
   C6_corrected_extremes _ (by norm_num) (by norm_num) rfl (by norm_num)
     (by norm_num) rfl⟩

/-- C7: the spec scenario (`dead_zone = 0.05`, `hot_zone = 0`, default
calibration): feeding 0.5, 0.9, 0.1, 0.7 in sequence yields corrected values
0, 1, -1 and approximately 0.5 (exactly 9/19, within 0.05 of 0.5). -/
theorem C7_scenario :
    ((Axis.init false (1/20) 0).set_ (1/2)).corrected_value = 0 ∧
    (((Axis.init false (1/20) 0).set_ (1/2)).set_ (9/10)).corrected_value = 1 ∧
    ((((Axis.init false (1/20) 0).set_ (1/2)).set_ (9/10)).set_
      (1/10)).corrected_value = -1 ∧
    |(((((Axis.init false (1/20) 0).set_ (1/2)).set_ (9/10)).set_ (1/10)).set_
      (7/10)).corrected_value - 1/2| < 1/20 := by
  norm_num [Axis.init, Axis.set_, Axis.corrected_value]
  rw [abs_of_pos (by norm_num : (0:ℚ) < 1/38)]
  norm_num

/-! ## Key-event dispatch helper lemmas -/

/-- A mask ANDed with its own complement is zero. -/
theorem int_land_lnot_self (m : Int) : Int.land m (Int.lnot m) = 0 := by
  apply int_eq_of_testBit_eq
  intro k
  rw [Int.testBit_land, Int.testBit_lnot]
  have h0 : (0 : Int).testBit k = false := by simp [Int.testBit]
  rw [h0]
  cases m.testBit k <;> simp

/-- Zero ANDed with anything is zero. -/
theorem int_zero_land (m : Int) : Int.land 0 m = 0 := by
  apply int_eq_of_testBit_eq
  intro k
  rw [Int.testBit_land]
  have h0 : (0 : Int).testBit k = false := by simp [Int.testBit]
  rw [h0]
  simp

/-- `handle_event` on a mapped key event with value 1: set the button's bit
and dispatch to every registration whose mask meets it, in list order. -/
theorem handle_event_key_press_eq (s : SixAxisState) (c b : Nat)
    (hmap : keyCodeToButton c = some b) :
    s.handle_event ⟨EV_KEY, c, 1⟩ =
      ({ s with buttons_pressed := Int.lor s.buttons_pressed (1 <<< (b : Int)) },
       (s.button_handlers.filter
         (fun h => Int.land h.mask (1 <<< (b : Int)) != 0)).map
         (fun h => (h.handler, b))) := by
  simp [SixAxisState.handle_event, EV_KEY, EV_ABS, hmap]

/-- `handle_event` on a mapped key event with any value other than 1: clear
the button's bit, no dispatch. -/
theorem handle_event_key_other_eq (s : SixAxisState) (c b : Nat) (v : Int)
    (hmap : keyCodeToButton c = some b) (hv : v ≠ 1) :
    s.handle_event ⟨EV_KEY, c, v⟩ =
      ({ s with buttons_pressed :=
          Int.land s.buttons_pressed (Int.lnot (1 <<< (b : Int))) }, []) := by
  simp [SixAxisState.handle_event, EV_KEY, EV_ABS, hmap, hv]

/-! ## Claim C1: drain history -/

/-- C1 (code behaviour at the claim's failing input): after a press of
button `b` followed by a release, with no drain in between, the next
`get_and_clear_button_press_history` returns a bitfield with bit `b`
CLEAR — the release already erased it — while the claim (and the method's
own docstring, sixaxis.py:137-139) promise bit `b` set.  The parts of the
claim the code does satisfy are also recorded: the drain zeroes
`buttons_pressed`, a subsequent `is_pressed b` is false, and the bit was
set while the button was held. -/
theorem C1_press_release_drain (s : SixAxisState) (c b : Nat)
    (hmap : keyCodeToButton c = some b) :
    let s1 := (s.handle_event ⟨EV_KEY, c, 1⟩).1
    let s2 := (s1.handle_event ⟨EV_KEY, c, 0⟩).1
    let drained := s2.get_and_clear_button_press_history
    Int.land drained.1 (1 <<< (b : Int)) = 0 ∧
    drained.2.buttons_pressed = 0 ∧
    drained.2.is_pressed b = false ∧
    s1.is_pressed b = true := by
  intro s1 s2 drained
  have h1 : s1 = { s with buttons_pressed := Int.lor s.buttons_pressed (1 <<< (b : Int)) } := by
    show (s.handle_event ⟨EV_KEY, c, 1⟩).1 = _
    rw [handle_event_key_press_eq s c b hmap]
  have h2 : s2 = { s with buttons_pressed := Int.land (Int.lor s.buttons_pressed (1 <<< (b : Int))) (Int.lnot (1 <<< (b : Int))) } := by
    show (s1.handle_event ⟨EV_KEY, c, 0⟩).1 = _
    rw [h1, handle_event_key_other_eq _ c b 0 hmap (by norm_num)]
  refine ⟨?_, ?_, ?_, ?_⟩
  · show Int.land s2.buttons_pressed (1 <<< (b : Int)) = 0
    rw [h2]
    exact int_land_lnot_land _ _
  · rfl
  · show (Int.land (0 : Int) (1 <<< (b : Int)) != 0) = false
    rw [int_zero_land]
    rfl
  · show (Int.land s1.buttons_pressed (1 <<< (b : Int)) != 0) = true
    rw [h1]
    show (Int.land (Int.lor s.buttons_pressed (1 <<< (b : Int)))
      (1 <<< (b : Int)) != 0) = true
    rw [int_lor_land]
    simpa using one_shiftLeft_ne_zero b

/-- C1, witness: the freshly constructed controller, CIRCLE pressed and
released via its key code 305. -/
theorem C1_press_release_drain_witness :
    let s0 := SixAxisState.init (1/20) 0 [false, false, false, false]
    let s1 := (s0.handle_event ⟨EV_KEY, 305, 1⟩).1
    let s2 := (s1.handle_event ⟨EV_KEY, 305, 0⟩).1
    let drained := s2.get_and_clear_button_press_history
    keyCodeToButton 305 = some BUTTON_CIRCLE ∧
    (Int.land drained.1 (1 <<< (BUTTON_CIRCLE : Int)) = 0 ∧
     drained.2.buttons_pressed = 0 ∧
     drained.2.is_pressed BUTTON_CIRCLE = false ∧
     s1.is_pressed BUTTON_CIRCLE = true) :=
  ⟨rfl, C1_press_release_drain
    (SixAxisState.init (1/20) 0 [false, false, false, false]) 305 BUTTON_CIRCLE rfl⟩

/-! ## Claim C10: non-0/1 key values -/

/-- C10: a mapped key event whose value is neither 0 nor 1 (e.g. the evdev
auto-repeat value 2) takes the `else` branch of `handle_event`, exactly like
a release: same resulting state as a value-0 event, the button's bit is
cleared, and no handlers run. -/
theorem C10_nonpress_is_release (s : SixAxisState) (c b : Nat) (v : Int)
    (hmap : keyCodeToButton c = some b) (hv : v ≠ 1) :
    s.handle_event ⟨EV_KEY, c, v⟩ = s.handle_event ⟨EV_KEY, c, 0⟩ ∧
    (s.handle_event ⟨EV_KEY, c, v⟩).2 = [] ∧
    (s.handle_event ⟨EV_KEY, c, v⟩).1.is_pressed b = false := by
  have hev := handle_event_key_other_eq s c b v hmap hv
  have he0 := handle_event_key_other_eq s c b 0 hmap (by norm_num)
  refine ⟨by rw [hev, he0], by rw [hev], ?_⟩
  rw [hev]
  show (Int.land (Int.land s.buttons_pressed (Int.lnot (1 <<< (b : Int))))
    (1 <<< (b : Int)) != 0) = false
  rw [int_land_lnot_land]
  rfl

/-- C10, witness: auto-repeat value 2 on CIRCLE's key code 305 at the
freshly constructed controller. -/
theorem C10_nonpress_is_release_witness :
    let s0 := SixAxisState.init (1/20) 0 [false, false, false, false]
    (keyCodeToButton 305 = some BUTTON_CIRCLE ∧ (2 : Int) ≠ 1) ∧
    (s0.handle_event ⟨EV_KEY, 305, 2⟩ = s0.handle_event ⟨EV_KEY, 305, 0⟩ ∧
     (s0.handle_event ⟨EV_KEY, 305, 2⟩).2 = [] ∧
     (s0.handle_event ⟨EV_KEY, 305, 2⟩).1.is_pressed BUTTON_CIRCLE = false) :=
  ⟨⟨rfl, by norm_num⟩,
   C10_nonpress_is_release
     (SixAxisState.init (1/20) 0 [false, false, false, false]) 305 BUTTON_CIRCLE 2
     rfl (by norm_num)⟩

/-! ## Claim C5: connect return value -/

/-- C5 (code behaviour): on a disconnected controller with a discoverable
device, `connect` falls off the end of the function and returns Python
`None` (`none`) — not the `True` promised by the claim and the docstring
(sixaxis.py:191-192) — while still attaching the feed; when already
connected it returns `False`; with no locator and empty discovery it raises
`IOError`. -/
theorem C5_connect_behaviour :
    (SixAxisState.init (1/20) 0 [false, false, false, false]).connect none
        defaultControllerName [defaultControllerName] =
      .ok (none, { SixAxisState.init (1/20) 0 [false, false, false, false] with connected := true }) ∧
    (∀ t : SixAxisState,
      (SixAxisState.init (1/20) 0 [false, false, false, false]).connect none
          defaultControllerName [defaultControllerName] ≠ .ok (some true, t)) ∧
    ({ SixAxisState.init (1/20) 0 [false, false, false, false] with connected := true }).connect
        none defaultControllerName [defaultControllerName] =
      .ok (some false, { SixAxisState.init (1/20) 0 [false, false, false, false] with connected := true }) ∧
    (SixAxisState.init (1/20) 0 [false, false, false, false]).connect none
        defaultControllerName [] =
      .error "Cannot find a SixAxis controller named PLAYSTATION(R)3 Controller" := by
  refine ⟨rfl, ?_, rfl, rfl⟩
  intro t h
  have := (Except.ok.injEq _ _).mp h
  simp at this

/-! ## Claim C4: press-edge dispatch -/

/-- C4: a mapped key event with value 1 sets the button's bit and invokes
`handler(b)` for each registration whose mask meets `1 << b`, in
registration order; the dispatch repeats on a second value-1 event without
an intervening release; a value-0 event clears the bit and dispatches
nothing. -/
theorem C4_press_dispatch (s : SixAxisState) (c b : Nat)
    (hmap : keyCodeToButton c = some b) :
    let press := s.handle_event ⟨EV_KEY, c, 1⟩
    press.2 = (s.button_handlers.filter
        (fun h => Int.land h.mask (1 <<< (b : Int)) != 0)).map
        (fun h => (h.handler, b)) ∧
    press.1.is_pressed b = true ∧
    press.1.button_handlers = s.button_handlers ∧
    press.1.axes = s.axes ∧
    (press.1.handle_event ⟨EV_KEY, c, 1⟩).2 = press.2 ∧
    (s.handle_event ⟨EV_KEY, c, 0⟩).2 = [] ∧
    (s.handle_event ⟨EV_KEY, c, 0⟩).1.is_pressed b = false := by
  intro press
  have hp := handle_event_key_press_eq s c b hmap
  have h0 := handle_event_key_other_eq s c b 0 hmap (by norm_num)
  refine ⟨?_, ?_, ?_, ?_, ?_, ?_, ?_⟩
  · show (s.handle_event ⟨EV_KEY, c, 1⟩).2 = _
    rw [hp]
  · show ((s.handle_event ⟨EV_KEY, c, 1⟩).1.is_pressed b) = true
    rw [hp]
    show (Int.land (Int.lor s.buttons_pressed (1 <<< (b : Int)))
      (1 <<< (b : Int)) != 0) = true
    rw [int_lor_land]
    simpa using one_shiftLeft_ne_zero b
  · show (s.handle_event ⟨EV_KEY, c, 1⟩).1.button_handlers = _
    rw [hp]
  · show (s.handle_event ⟨EV_KEY, c, 1⟩).1.axes = _
    rw [hp]
  · show ((s.handle_event ⟨EV_KEY, c, 1⟩).1.handle_event ⟨EV_KEY, c, 1⟩).2 =
      (s.handle_event ⟨EV_KEY, c, 1⟩).2
    rw [hp, handle_event_key_press_eq _ c b hmap]
  · rw [h0]
  · show ((s.handle_event ⟨EV_KEY, c, 0⟩).1.is_pressed b) = false
    rw [h0]
    show (Int.land (Int.land s.buttons_pressed (Int.lnot (1 <<< (b : Int))))
      (1 <<< (b : Int)) != 0) = false
    rw [int_land_lnot_land]
    rfl

/-- C4, witness: two registrations (handler 7 on CIRCLE, handler 8 on
SQUARE) and a CIRCLE press via key code 305. -/
theorem C4_press_dispatch_witness :
    let s0 := SixAxisState.init (1/20) 0 [false, false, false, false]
    let sA := (s0.register_button_handler 7 (.single BUTTON_CIRCLE)).2
    let s := (sA.register_button_handler 8 (.single BUTTON_SQUARE)).2
    let press := s.handle_event ⟨EV_KEY, 305, 1⟩
    keyCodeToButton 305 = some BUTTON_CIRCLE ∧
    (press.2 = (s.button_handlers.filter
        (fun h => Int.land h.mask (1 <<< (BUTTON_CIRCLE : Int)) != 0)).map
        (fun h => (h.handler, BUTTON_CIRCLE)) ∧
     press.1.is_pressed BUTTON_CIRCLE = true ∧
     press.1.button_handlers = s.button_handlers ∧
     press.1.axes = s.axes ∧
     (press.1.handle_event ⟨EV_KEY, 305, 1⟩).2 = press.2 ∧
     (s.handle_event ⟨EV_KEY, 305, 0⟩).2 = [] ∧
     (s.handle_event ⟨EV_KEY, 305, 0⟩).1.is_pressed BUTTON_CIRCLE = false) :=
  ⟨rfl, C4_press_dispatch _ 305 BUTTON_CIRCLE rfl⟩

/-! ## Claim C8: registration masks -/

/-- Carry-free addition: naturals with disjoint bits add like bitwise or. -/
theorem nat_add_eq_lor_of_and_eq_zero (a b : Nat) (h : a &&& b = 0) :
    a + b = a ||| b := by
  induction a using Nat.strong_induction_on generalizing b with
  | _ a ih =>
    rcases Nat.eq_zero_or_pos a with rfl | ha
    · simp
    · have hd : a / 2 &&& b / 2 = 0 := by
        rw [← Nat.and_div_two, h]
      have iha := ih (a / 2) (Nat.div_lt_self ha (by norm_num)) (b / 2) hd
      have h1 := Nat.or_mod_two_eq_one (a := a) (b := b)
      have h2 := Nat.and_mod_two_eq_one (a := a) (b := b)
      rw [h] at h2
      have hdiv : (a ||| b) / 2 = a / 2 ||| b / 2 := Nat.or_div_two
      omega

/-- Distinct powers of two have disjoint bits. -/
theorem nat_two_pow_and_two_pow (b b' : Nat) (h : b ≠ b') :
    2 ^ b &&& 2 ^ b' = 0 := by
  apply Nat.eq_of_testBit_eq
  intro k
  rw [Nat.testBit_and, Nat.zero_testBit, Nat.testBit_two_pow, Nat.testBit_two_pow]
  simp only [Bool.and_eq_false_iff, decide_eq_false_iff_not]
  omega

/-- Folding `+ 2 ^ b` equals the accumulator plus the sum of the powers. -/
theorem nat_foldl_shift_add (bs : List Nat) (i : Nat) :
    bs.foldl (fun m b => m + 1 <<< b) i = i + (bs.map (fun b => 2 ^ b)).sum := by
  induction bs generalizing i with
  | nil => simp
  | cons b bs ihb =>
    rw [List.foldl_cons, ihb]
    simp [Nat.one_shiftLeft, Nat.add_assoc]

/-- Folding `||| 2 ^ b` over pairwise-distinct codes whose bits are also
disjoint from the accumulator equals the accumulator plus the powers. -/
theorem nat_foldl_shift_lor (bs : List Nat) (i : Nat) (hnd : bs.Nodup)
    (hdisj : ∀ b ∈ bs, i &&& 2 ^ b = 0) :
    bs.foldl (fun m b => m ||| 1 <<< b) i = i + (bs.map (fun b => 2 ^ b)).sum := by
  induction bs generalizing i with
  | nil => simp
  | cons b bs ihb =>
    have hib : i ||| 2 ^ b = i + 2 ^ b :=
      (nat_add_eq_lor_of_and_eq_zero i (2 ^ b) (hdisj b (by simp))).symm
    have hstep : ∀ b' ∈ bs, (i ||| 2 ^ b) &&& 2 ^ b' = 0 := by
      intro b' hb'
      rw [Nat.and_distrib_right, hdisj b' (by simp [hb']),
        nat_two_pow_and_two_pow b b' (by rintro rfl; exact (List.nodup_cons.mp hnd).1 hb'),
        Nat.or_self]
    calc (b :: bs).foldl (fun m b => m ||| 1 <<< b) i
        = bs.foldl (fun m b => m ||| 1 <<< b) (i ||| 2 ^ b) := by
          simp [Nat.one_shiftLeft]
      _ = (i ||| 2 ^ b) + (bs.map (fun b => 2 ^ b)).sum :=
          ihb (i ||| 2 ^ b) (List.nodup_cons.mp hnd).2 hstep
      _ = i + ((b :: bs).map (fun b => 2 ^ b)).sum := by
          rw [hib]
          simp [Nat.add_assoc]

/-- `computeMask` over a list is the cast of the Nat-level additive fold. -/
theorem computeMask_list_cast (bs : List Nat) (i : Nat) :
    bs.foldl (fun (m : Int) (b : Nat) => m + (1 <<< (b : Int))) (i : Int) =
      ((bs.foldl (fun m b => m + 1 <<< b) i : Nat) : Int) := by
  induction bs generalizing i with
  | nil => simp
  | cons b bs ihb =>
    have hcast : (i : Int) + (1 <<< (b : Int)) = ((i + 1 <<< b : Nat) : Int) := by
      rw [Int.one_shiftLeft]
      push_cast [Nat.one_shiftLeft]
      ring
    rw [List.foldl_cons, List.foldl_cons, hcast, ihb]

/-- `maskSpecOr` over a list is the cast of the Nat-level or-fold. -/
theorem maskSpecOr_list_cast (bs : List Nat) (i : Nat) :
    bs.foldl (fun (m : Int) (b : Nat) => Int.lor m (1 <<< (b : Int))) (i : Int) =
      ((bs.foldl (fun m b => m ||| 1 <<< b) i : Nat) : Int) := by
  induction bs generalizing i with
  | nil => simp
  | cons b bs ihb =>
    have hcast : Int.lor (i : Int) (1 <<< (b : Int)) = ((i ||| 1 <<< b : Nat) : Int) := by
      rw [Int.one_shiftLeft, Nat.one_shiftLeft]
      rfl
    rw [List.foldl_cons, List.foldl_cons, hcast, ihb]

/-- `maskSpecSum` over a list is the cast of the sum of the powers. -/
theorem maskSpecSum_list_cast (bs : List Nat) :
    maskSpecSum (.list bs) = (((bs.map (fun b => 2 ^ b)).sum : Nat) : Int) := by
  induction bs with
  | nil => simp [maskSpecSum]
  | cons b bs ihb =>
    simp only [maskSpecSum] at ihb ⊢
    rw [List.map_cons, List.sum_cons, ihb, List.map_cons, List.sum_cons,
      Int.one_shiftLeft, Nat.cast_add]

/-- Zero ORed with anything is itself. -/
theorem int_zero_lor (m : Int) : Int.lor 0 m = m := by
  apply int_eq_of_testBit_eq
  intro k
  rw [Int.testBit_lor]
  have h0 : (0 : Int).testBit k = false := by simp [Int.testBit]
  rw [h0]
  simp

/-- C8, counterexample: registering with the repeated list
`[SELECT, SELECT]` stores mask `2` (`1 + 1`), while the OR of `1 << code`
over the supplied codes is `1`. -/
theorem C8_counterexample :
    let s0 := SixAxisState.init (1/20) 0 [false, false, false, false]
    let r := s0.register_button_handler 0 (.list [BUTTON_SELECT, BUTTON_SELECT])
    r.1.mask = 2 ∧
    maskSpecOr (.list [BUTTON_SELECT, BUTTON_SELECT]) = 1 ∧
    r.1.mask ≠ maskSpecOr (.list [BUTTON_SELECT, BUTTON_SELECT]) := by
  refine ⟨rfl, ?_, ?_⟩ <;> decide

/-- C8, amended: the stored registration's mask is the SUM of `1 << code`
over every code supplied (repeats accumulate); when the supplied codes are
pairwise distinct this coincides with the claimed bitwise OR. -/
theorem C8_mask_amended (s : SixAxisState) (f : Nat) (buttons : Buttons) :
    let r := s.register_button_handler f buttons
    r.2.button_handlers = s.button_handlers ++ [r.1] ∧
    r.1.handler = f ∧
    r.1.mask = maskSpecSum buttons ∧
    ((buttonCodes buttons).Nodup → r.1.mask = maskSpecOr buttons) := by
  refine ⟨rfl, rfl, ?_, ?_⟩
  · show computeMask buttons = maskSpecSum buttons
    cases buttons with
    | single b => simp [computeMask, maskSpecSum]
    | list bs =>
      show List.foldl _ ((0 : Nat) : Int) _ = _
      rw [computeMask_list_cast bs 0, nat_foldl_shift_add bs 0,
        maskSpecSum_list_cast bs]
      simp
  · intro hnd
    show computeMask buttons = maskSpecOr buttons
    cases buttons with
    | single b =>
      simp [computeMask, maskSpecOr, int_zero_lor, Nat.cast_zero]
    | list bs =>
      show List.foldl _ ((0 : Nat) : Int) _ = List.foldl _ ((0 : Nat) : Int) _
      rw [computeMask_list_cast bs 0, nat_foldl_shift_add bs 0,
        maskSpecOr_list_cast bs 0,
        nat_foldl_shift_lor bs 0 (by simpa [buttonCodes] using hnd) (by simp)]

/-- C8, witness: the distinct pair `[SQUARE, CIRCLE]` on the fresh
controller — the stored mask is both the sum and (codes being distinct) the
OR of the two powers. -/
theorem C8_mask_amended_witness :
    let s0 := SixAxisState.init (1/20) 0 [false, false, false, false]
    let r := s0.register_button_handler 5 (.list [BUTTON_SQUARE, BUTTON_CIRCLE])
    r.2.button_handlers = s0.button_handlers ++ [r.1] ∧
    r.1.handler = 5 ∧
    r.1.mask = maskSpecSum (.list [BUTTON_SQUARE, BUTTON_CIRCLE]) ∧
    ((buttonCodes (.list [BUTTON_SQUARE, BUTTON_CIRCLE])).Nodup →
      r.1.mask = maskSpecOr (.list [BUTTON_SQUARE, BUTTON_CIRCLE])) :=
  C8_mask_amended (SixAxisState.init (1/20) 0 [false, false, false, false]) 5
    (.list [BUTTON_SQUARE, BUTTON_CIRCLE])

/-! ## Claim C9: deregistration capability -/

/-- C9: with two registrations made by distinct handlers (and no earlier
equal registration in the list — Python's `list.remove` deletes the first
dict equal to the captured one), invoking the first capability removes
exactly its own registration: the second registration survives, and a press
matching its mask still dispatches to it. -/
theorem C9_deregistration (s : SixAxisState) (f1 f2 : Nat) (bts1 bts2 : Buttons)
    (c b : Nat) (hmap : keyCodeToButton c = some b) (hne : f1 ≠ f2)
    (hnotin : ({ handler := f1, mask := computeMask bts1 } : Registration) ∉
      s.button_handlers)
    (hmask2 : Int.land (computeMask bts2) (1 <<< (b : Int)) ≠ 0) :
    let r1 := s.register_button_handler f1 bts1
    let r2 := r1.2.register_button_handler f2 bts2
    let s3 := r2.2.removeRegistration r1.1
    s3.button_handlers = s.button_handlers ++ [r2.1] ∧
    (f2, b) ∈ (s3.handle_event ⟨EV_KEY, c, 1⟩).2 := by
  intro r1 r2 s3
  have hbh : s3.button_handlers = s.button_handlers ++ [r2.1] := by
    show ((s.button_handlers ++
        [({ handler := f1, mask := computeMask bts1 } : Registration)]) ++
      [({ handler := f2, mask := computeMask bts2 } : Registration)]).erase
        ({ handler := f1, mask := computeMask bts1 } : Registration) =
      s.button_handlers ++
        [({ handler := f2, mask := computeMask bts2 } : Registration)]
    rw [List.append_assoc, List.erase_append_right _ hnotin,
      List.singleton_append, List.erase_cons_head]
  refine ⟨hbh, ?_⟩
  have hp := handle_event_key_press_eq s3 c b hmap
  show (f2, b) ∈ (s3.handle_event ⟨EV_KEY, c, 1⟩).2
  rw [hp]
  show (f2, b) ∈ (s3.button_handlers.filter
    (fun h => Int.land h.mask (1 <<< (b : Int)) != 0)).map (fun h => (h.handler, b))
  rw [hbh]
  refine List.mem_map.mpr ⟨r2.1, List.mem_filter.mpr ⟨by simp, ?_⟩, rfl⟩
  simpa using hmask2

/-- C9, witness: handler 21 on SQUARE and handler 22 on SQUARE|CIRCLE over
the fresh controller; removing the first leaves the second firing on a
CIRCLE press (key code 305). -/
theorem C9_deregistration_witness :
    let s0 := SixAxisState.init (1/20) 0 [false, false, false, false]
    let r1 := s0.register_button_handler 21 (.single BUTTON_SQUARE)
    let r2 := r1.2.register_button_handler 22 (.list [BUTTON_SQUARE, BUTTON_CIRCLE])
    let s3 := r2.2.removeRegistration r1.1
    (keyCodeToButton 305 = some BUTTON_CIRCLE ∧ (21 : Nat) ≠ 22 ∧
     ({ handler := 21, mask := computeMask (.single BUTTON_SQUARE) } : Registration) ∉
       s0.button_handlers ∧
     Int.land (computeMask (.list [BUTTON_SQUARE, BUTTON_CIRCLE]))
       (1 <<< (BUTTON_CIRCLE : Int)) ≠ 0) ∧
    (s3.button_handlers = s0.button_handlers ++ [r2.1] ∧
     (22, BUTTON_CIRCLE) ∈ (s3.handle_event ⟨EV_KEY, 305, 1⟩).2) :=
  ⟨⟨rfl, by norm_num, by simp [SixAxisState.init], by decide⟩,
   C9_deregistration (SixAxisState.init (1/20) 0 [false, false, false, false])
     21 22 (.single BUTTON_SQUARE) (.list [BUTTON_SQUARE, BUTTON_CIRCLE])
     305 BUTTON_CIRCLE rfl (by norm_num) (by simp [SixAxisState.init]) (by decide)⟩

end SixAxisPy
